import Mathlib

/-!
Shallow embedding of the opencensus-go-exporter-kinesis exporter
(`kinesis.go`) and proofs about its specified behaviour.

The exporter routes tracing spans to AWS Kinesis shards.  The file embeds:
  * the `Options` validation fragment of `NewExporter`;
  * the size guard and submission logic of `processJaegerSpan` and
    `processOCSpan`;
  * shard resolution (`getShardProducer`), with `belongsToShard` modelled
    from the spec (the shard code is not part of the exporter file);
  * the admission gate (`acquire` / `release` over the semaphore channel)
    as a step relation;
  * `Flush` including its `close` on the semaphore channel.

Wire-format encoding (protobuf `Marshal`) is an external collaborator; the
processing pipeline is parameterised over an encoding function
`encode : Span → Option (List Nat)` (bytes, `none` = marshal failure).
For size arithmetic a concrete protobuf-style size model
`jaegerEncodedSize` is provided.
-/

set_option maxRecDepth 100000

namespace Kinesis

/-- Supported encoding name for the jaeger span schema, from `kinesis.go`. -/
def encodingJaeger : String := "jaeger-proto"

/-- Supported encoding name for the OpenCensus span schema, from `kinesis.go`. -/
def encodingOC : String := "oc-proto"

/-- The `supportedEncodings` array of `kinesis.go`. -/
def supportedEncodings : List String := [encodingJaeger, encodingOC]

/-- The fields of `Options` that the validation fragment of `NewExporter`
reads or defaults.  Remaining fields (AWS endpoint, KPL tuning knobs) are
passed through untouched and are omitted. -/
structure Options where
  name : String
  streamName : String
  awsRegion : String
  queueSize : Nat
  numWorkers : Nat
  maxListSize : Nat
  listFlushInterval : Nat
  maxAllowedSizePerSpan : Nat
  encoding : String
deriving Repr, DecidableEq

/-- `Options.isValidEncoding` from `kinesis.go`: linear scan of
`supportedEncodings`. -/
def Options.isValidEncoding (o : Options) : Bool :=
  supportedEncodings.any (fun e => e == o.encoding)

/-- The defaulting prefix of `NewExporter` (`kinesis.go` lines 86-103):
zero-valued numeric options are replaced by their defaults.  Any error of
the subsequent validation is returned before any AWS session, producer or
view resource is created. -/
def withDefaults (o : Options) : Options :=
  let o := if o.maxListSize = 0 then { o with maxListSize := 100000 } else o
  let o := if o.listFlushInterval = 0 then { o with listFlushInterval := 5 } else o
  let o := if o.maxAllowedSizePerSpan = 0 then { o with maxAllowedSizePerSpan := 900000 } else o
  let o := if o.queueSize = 0 then { o with queueSize := 100000 } else o
  let o := if o.numWorkers = 0 then { o with numWorkers := 8 } else o
  o

/-- The validation fragment of `NewExporter` after defaulting (`kinesis.go`
lines 104-118): fail when the region or stream name is absent, default the
encoding to `jaeger-proto` when unset, fail on an unrecognised encoding. -/
def validateOptions (o : Options) : Except String Options :=
  let o := withDefaults o
  if o.awsRegion = "" then
    .error "missing AWS Region for Kinesis exporter"
  else if o.streamName = "" then
    .error "missing Stream Name for Kinesis exporter"
  else
    let o := if o.encoding = "" then { o with encoding := encodingJaeger } else o
    if !o.isValidEncoding then
      .error "invalid option for Encoding"
    else
      .ok o

/-- Whether a validation result is a success. -/
def exceptOk {α : Type} (r : Except String α) : Bool :=
  match r with
  | .ok _ => true
  | .error _ => false

/-- The semaphore construction of `NewExporter` (`kinesis.go` lines
163-174): `maxReceivers` is `strconv.Atoi(os.Getenv("MAX_KINESIS_RECEIVERS"))`
(0 when the variable is unset or not an integer); the semaphore channel is
created only when it is strictly positive, otherwise the field stays `nil`
(`none`).  The value carried by `some` is the channel capacity. -/
def semaphoreInit (maxReceivers : Int) : Option Nat :=
  if maxReceivers > 0 then some maxReceivers.toNat else none

/-! ## Jaeger and OpenCensus span models -/

/-- Value type tag of a jaeger `KeyValue` (the `gen.ValueType` enum used by
`kinesis.go`; STRING is the zero value of the enum). -/
inductive ValueType where
  | STRING
  | BOOL
  | INT64
deriving Repr, DecidableEq

/-- A jaeger `gen.KeyValue` as used by `kinesis.go`: a key, the type tag and
the typed value slots (only those the exporter writes are modelled). -/
structure KeyValue where
  key : String
  vType : ValueType
  vStr : String := ""
  vBool : Bool := false
  vInt64 : Int := 0
deriving Repr, DecidableEq

/-- A jaeger `gen.Log` entry: its attribute fields (the timestamp is part of
the unmodelled remainder). -/
structure Log where
  fields : List KeyValue
deriving Repr, DecidableEq

/-- The jaeger `gen.Span` fields the exporter reads or writes: the trace id
rendered as the routing string (`span.TraceID.String()`), the operation
name, tags and logs.  `extraSize` is the encoded byte size of the remaining
fields (span id, references, flags, times, process), which the exporter
never touches. -/
structure Span where
  traceID : String
  operationName : String
  tags : List KeyValue
  logs : List Log
  extraSize : Nat
deriving Repr, DecidableEq

/-- The three dropped-marker tags written by the oversize path of
`processJaegerSpan` (`kinesis.go` lines 257-261). -/
def droppedTags (size : Nat) : List KeyValue :=
  [ { key := "omnition.dropped", vType := .BOOL, vBool := true },
    { key := "omnition.dropped.reason", vType := .STRING, vStr := "unsupported size" },
    { key := "omnition.dropped.size", vType := .INT64, vInt64 := (size : Int) } ]

/-- The span mutation of the jaeger oversize path (`kinesis.go` lines
257-262): replace the tags with the three dropped markers and clear the
logs. -/
def markDroppedJaeger (s : Span) (size : Nat) : Span :=
  { s with tags := droppedTags size, logs := [] }

/-- An OpenCensus attribute value (`tracepb.AttributeValue`), restricted to
the variants the exporter writes. -/
inductive OCValue where
  | boolValue (b : Bool)
  | stringValue (s : String)
  | intValue (i : Int)
deriving Repr, DecidableEq

/-- The `tracepb.Span` fields the exporter reads or writes: the trace id
bytes rendered as the routing string (`string(span.TraceId)`), the
attribute map (a Go map, modelled as an association list) and the time
events (opaque payload sizes).  `extraSize` is the encoded size of the
untouched remainder. -/
structure OCSpan where
  traceId : String
  attributeMap : List (String × OCValue)
  timeEvents : List Nat
  extraSize : Nat
deriving Repr, DecidableEq

/-- The three dropped-marker attributes written by the oversize path of
`processOCSpan` (`kinesis.go` lines 295-299). -/
def droppedAttributes (size : Nat) : List (String × OCValue) :=
  [ ("omnition.dropped", .boolValue true),
    ("omnition.dropped.reason", .stringValue "unsupported size"),
    ("omnition.dropped.size", .intValue (size : Int)) ]

/-- The span mutation of the OC oversize path (`kinesis.go` lines 295-299):
replace the attribute map with the three dropped markers.  The time events
are not touched by the source. -/
def markDroppedOC (s : OCSpan) (size : Nat) : OCSpan :=
  { s with attributeMap := droppedAttributes size }

/-! ## Shard routing -/

/-- A shard descriptor: id and the inclusive 128-bit hash-key range it owns
(hash keys modelled as `Nat`). -/
structure Shard where
  shardId : String
  startingHashKey : Nat
  endingHashKey : Nat
deriving Repr, DecidableEq

/-- The routing-relevant fields of a `shardProducer`: its shard descriptor
and the fixed partition key (the shard's range start rendered as a
string). -/
structure ShardProducerM where
  shard : Shard
  partitionKey : String
deriving Repr, DecidableEq

/-- Modelled from the spec: `belongsToShard` lives in the shard source file,
which is not part of the exporter file under review.  Per spec section 4.2
it hashes the partition key with the stream service's 128-bit digest
(abstracted as the parameter `hash`) and tests containment in the shard's
inclusive hash-key range. -/
def belongsToShard (hash : String → Nat) (sh : Shard) (key : String) : Bool :=
  decide (sh.startingHashKey ≤ hash key ∧ hash key ≤ sh.endingHashKey)

/-- `Exporter.getShardProducer` (`kinesis.go` lines 329-340): linear scan of
the producers, returning the first whose shard contains the key's hash, or
an error when none does. -/
def getShardProducer (hash : String → Nat) (producers : List ShardProducerM)
    (partitionKey : String) : Except String ShardProducerM :=
  match producers with
  | [] => .error ("no shard found for parition key " ++ partitionKey)
  | sp :: rest =>
    if belongsToShard hash sp.shard partitionKey then .ok sp
    else getShardProducer hash rest partitionKey

/-! ## Span processing -/

/-- `Exporter.processJaegerSpan` (`kinesis.go` lines 241-278), parameterised
over the routing hash and the external protobuf encoder `encode` (`none` =
marshal failure).  The result is `none` when the span is dropped (routing
or marshal error, which the source only logs) and otherwise the submission
handed to `sp.putJaeger`: the resolved producer, the span value passed and
the size hint (the byte length of the encoding the source just computed). -/
def processJaegerSpan (producers : List ShardProducerM) (hash : String → Nat)
    (maxAllowedSizePerSpan : Nat) (encode : Span → Option (List Nat))
    (span : Span) : Option (ShardProducerM × Span × Nat) :=
  match getShardProducer hash producers span.traceID with
  | .error _ => none
  | .ok sp =>
    match encode span with
    | none => none
    | some encoded =>
      let size := encoded.length
      if size > maxAllowedSizePerSpan then
        let span2 := markDroppedJaeger span size
        match encode span2 with
        | none => none
        | some encoded2 => some (sp, span2, encoded2.length)
      else
        some (sp, span, size)

/-- `Exporter.processOCSpan` (`kinesis.go` lines 280-315), same shape as the
jaeger path; the submission is what is handed to `sp.putOC`. -/
def processOCSpan (producers : List ShardProducerM) (hash : String → Nat)
    (maxAllowedSizePerSpan : Nat) (encode : OCSpan → Option (List Nat))
    (span : OCSpan) : Option (ShardProducerM × OCSpan × Nat) :=
  match getShardProducer hash producers span.traceId with
  | .error _ => none
  | .ok sp =>
    match encode span with
    | none => none
    | some encoded =>
      let size := encoded.length
      if size > maxAllowedSizePerSpan then
        let span2 := markDroppedOC span size
        match encode span2 with
        | none => none
        | some encoded2 => some (sp, span2, encoded2.length)
      else
        some (sp, span, size)

/-! ## Export entry points -/

/-- Outcome of an export call: the error value returned synchronously to
the caller, and the submission the spawned task eventually performs
(`none` when the task drops the span after an internal failure). -/
structure JaegerExportOutcome where
  returnedError : Option String
  taskResult : Option (ShardProducerM × Span × Nat)
deriving Repr, DecidableEq

/-- Outcome of an OC export call, see `JaegerExportOutcome`. -/
structure OCExportOutcome where
  returnedError : Option String
  taskResult : Option (ShardProducerM × OCSpan × Nat)
deriving Repr, DecidableEq

/-- `Exporter.ExportJaegerSpan` (`kinesis.go` lines 226-231): bumps the
enqueued counter, acquires an admission slot, spawns `processJaegerSpan`
and returns `nil` unconditionally.  The spawned task's result is recorded
separately from the returned error. -/
def ExportJaegerSpan (producers : List ShardProducerM) (hash : String → Nat)
    (maxAllowedSizePerSpan : Nat) (encode : Span → Option (List Nat))
    (span : Span) : JaegerExportOutcome :=
  { returnedError := none
    taskResult := processJaegerSpan producers hash maxAllowedSizePerSpan encode span }

/-- `Exporter.ExportSpan` (`kinesis.go` lines 221-223): delegates to
`ExportJaegerSpan`. -/
def ExportSpan (producers : List ShardProducerM) (hash : String → Nat)
    (maxAllowedSizePerSpan : Nat) (encode : Span → Option (List Nat))
    (span : Span) : JaegerExportOutcome :=
  ExportJaegerSpan producers hash maxAllowedSizePerSpan encode span

/-- `Exporter.ExportOCSpan` (`kinesis.go` lines 234-239). -/
def ExportOCSpan (producers : List ShardProducerM) (hash : String → Nat)
    (maxAllowedSizePerSpan : Nat) (encode : OCSpan → Option (List Nat))
    (span : OCSpan) : OCExportOutcome :=
  { returnedError := none
    taskResult := processOCSpan producers hash maxAllowedSizePerSpan encode span }

/-! ## Admission gate

The semaphore is a buffered channel of capacity `c` (`some c`) or the `nil`
channel (`none`).  The gate state is the number of outstanding
acquisitions (items buffered in the channel).  A step that would block
(send on a full channel, receive on an empty one) returns `none`. -/

/-- `Exporter.acquire` (`kinesis.go` lines 208-212): a no-op when the
semaphore is `nil`, otherwise a channel send, which completes only while
fewer than `c` items are buffered. -/
def acquireStep (cap : Option Nat) (outstanding : Nat) : Option Nat :=
  match cap with
  | none => some outstanding
  | some c => if outstanding < c then some (outstanding + 1) else none

/-- `Exporter.release` (`kinesis.go` lines 214-218): a no-op when the
semaphore is `nil`, otherwise a channel receive, which completes only
while the channel is non-empty. -/
def releaseStep (cap : Option Nat) (outstanding : Nat) : Option Nat :=
  match cap with
  | none => some outstanding
  | some _ => if 0 < outstanding then some (outstanding - 1) else none

/-- Gate states reachable from the empty channel by completed `acquire`
and `release` calls. -/
inductive GateReachable (cap : Option Nat) : Nat → Prop where
  | init : GateReachable cap 0
  | acq {n m : Nat} : GateReachable cap n → acquireStep cap n = some m →
      GateReachable cap m
  | rel {n m : Nat} : GateReachable cap n → releaseStep cap n = some m →
      GateReachable cap m

/-! ## Exporter state and Flush -/

/-- The exporter state visible to `Flush`: the count of `Stop()` calls made
on each producer so far, the number of spawned tasks still in flight, the
semaphore channel (`none` = `nil`) and whether it has been closed. -/
structure ExpState where
  stopCalls : List Nat
  inFlight : Nat
  semaphore : Option Nat
  semClosed : Bool
deriving Repr, DecidableEq

/-- The producer-stopping loop of `Flush` (`kinesis.go` lines 202-204):
calls `Stop()` once on every producer. -/
def flushStopPhase (st : ExpState) : ExpState :=
  { st with stopCalls := st.stopCalls.map (· + 1) }

/-- `Exporter.Flush` (`kinesis.go` lines 201-206): stop every producer,
then `close(e.semaphore)`.  Closing the `nil` channel panics, so the
result is `none` (no normal return) when the semaphore is `nil`; nothing
in `Flush` waits for in-flight tasks, so `inFlight` is unchanged. -/
def Flush (st : ExpState) : Option ExpState :=
  let st := flushStopPhase st
  match st.semaphore with
  | none => none
  | some _ => some { st with semClosed := true }

/-! ## Protobuf size model for the jaeger schema

`kinesis.go` delegates encoding to `gogoproto.Marshal`; the size model
below follows the protobuf wire format for the modelled `Span` fields
(tag byte, varint length, payload; zero-valued proto3 fields omitted),
with `Span.extraSize` standing for the untouched fields. -/

/-- Byte length of an unsigned varint. -/
def varintSize (n : Nat) : Nat :=
  if n < 128 then 1
  else if n < 16384 then 2
  else if n < 2097152 then 3
  else if n < 268435456 then 4
  else if n < 34359738368 then 5
  else 10

/-- Byte length of an `int64` varint: two's complement, so negative values
take 10 bytes. -/
def intVarintSize (i : Int) : Nat :=
  if i < 0 then 10 else varintSize i.toNat

/-- Encoded byte size of a length-delimited field with the given payload
size (single tag byte: all modelled field numbers are below 16). -/
def lenDelimSize (payload : Nat) : Nat :=
  1 + varintSize payload + payload

/-- Encoded payload size of a jaeger `KeyValue` message: key string, type
enum (STRING is the zero value and is omitted) and the typed value slot,
each omitted when zero-valued. -/
def kvSize (kv : KeyValue) : Nat :=
  (if kv.key.length = 0 then 0 else lenDelimSize kv.key.length)
  + (match kv.vType with | .STRING => 0 | _ => 2)
  + (match kv.vType with
     | .STRING => if kv.vStr.length = 0 then 0 else lenDelimSize kv.vStr.length
     | .BOOL => if kv.vBool then 2 else 0
     | .INT64 => if kv.vInt64 = 0 then 0 else 1 + intVarintSize kv.vInt64)

/-- Encoded payload size of a jaeger `Log` message: its fields. -/
def logSize (l : Log) : Nat :=
  (l.fields.map (fun kv => lenDelimSize (kvSize kv))).sum

/-- Encoded byte size of a list of tags as repeated `KeyValue` fields. -/
def tagsSize (tags : List KeyValue) : Nat :=
  (tags.map (fun kv => lenDelimSize (kvSize kv))).sum

/-- Encoded byte size of a list of logs as repeated `Log` fields. -/
def logsSize (logs : List Log) : Nat :=
  (logs.map (fun l => lenDelimSize (logSize l))).sum

/-- Encoded byte size of the operation-name field. -/
def opNameSize (s : Span) : Nat :=
  if s.operationName.length = 0 then 0 else lenDelimSize s.operationName.length

/-- The encoded size of the fields the oversize path retains: everything
except tags and logs. -/
def retainedSize (s : Span) : Nat :=
  s.extraSize + opNameSize s

/-- Total encoded byte size of a jaeger span in the model. -/
def jaegerEncodedSize (s : Span) : Nat :=
  retainedSize s + tagsSize s.tags + logsSize s.logs

/-- The jaeger encoder instance used to instantiate the pipeline: a byte
list whose length is `jaegerEncodedSize`. -/
def jaegerEncode (s : Span) : Option (List Nat) :=
  some (List.replicate (jaegerEncodedSize s) 0)

/-- A size model for the OC schema, used to instantiate the OC pipeline:
attribute entries and time events contribute their payloads plus framing
overhead, on top of the untouched remainder. -/
def ocEncodedSize (s : OCSpan) : Nat :=
  s.extraSize
  + (s.attributeMap.map (fun kv => 4 + kv.fst.length)).sum
  + (s.timeEvents.map (fun n => 2 + n)).sum

/-- The OC encoder instance used to instantiate the pipeline. -/
def ocEncode (s : OCSpan) : Option (List Nat) :=
  some (List.replicate (ocEncodedSize s) 0)

/-! ## Concrete fixtures -/

/-- A one-shard set covering hash keys `[0, 1000000]`. -/
def cexProducers : List ShardProducerM := [⟨⟨"shard-1", 0, 1000000⟩, "0"⟩]

/-- A routing hash landing every key at `7`, inside the fixture shard. -/
def cexHash : String → Nat := fun _ => 7

/-- A 300-byte string payload. -/
def bigStr : String := String.mk (List.replicate 300 'a')

/-- A span that is oversized because of a large log payload
(`jaegerEncodedSize` 322). -/
def bigLogSpan : Span :=
  { traceID := "t", operationName := "op", tags := [],
    logs := [⟨[{ key := "payload", vType := .STRING, vStr := bigStr }]⟩],
    extraSize := 0 }

/-- A span that is oversized purely because of its operation name, which
the oversize path retains (`jaegerEncodedSize` 303). -/
def bigOpSpan : Span :=
  { traceID := "t", operationName := bigStr, tags := [], logs := [], extraSize := 0 }

/-- An OC span that is oversized because of a 500-byte time event. -/
def eventsOCSpan : OCSpan :=
  { traceId := "t", attributeMap := [], timeEvents := [500], extraSize := 0 }

/-- A small jaeger span, well below any realistic limit
(`jaegerEncodedSize` 14). -/
def smallSpan : Span :=
  { traceID := "t", operationName := "op", tags := [], logs := [], extraSize := 10 }

/-- A small OC span (`ocEncodedSize` 10). -/
def smallOCSpan : OCSpan :=
  { traceId := "t", attributeMap := [], timeEvents := [], extraSize := 10 }

/-! ## Helper lemmas -/

theorem withDefaults_awsRegion (o : Options) :
    (withDefaults o).awsRegion = o.awsRegion := by
  simp only [withDefaults]
  split_ifs <;> rfl

theorem withDefaults_streamName (o : Options) :
    (withDefaults o).streamName = o.streamName := by
  simp only [withDefaults]
  split_ifs <;> rfl

theorem withDefaults_encoding (o : Options) :
    (withDefaults o).encoding = o.encoding := by
  simp only [withDefaults]
  split_ifs <;> rfl

theorem varintSize_le_ten (n : Nat) : varintSize n ≤ 10 := by
  simp only [varintSize]
  split_ifs <;> omega

theorem varintSize_of_lt (n : Nat) (h : n < 128) : varintSize n = 1 := by
  simp [varintSize, h]

theorem intVarintSize_le_ten (i : Int) : intVarintSize i ≤ 10 := by
  simp only [intVarintSize]
  split_ifs
  · omega
  · exact varintSize_le_ten _

/-- The three dropped-marker tags encode to at most 107 bytes. -/
theorem droppedTags_size_le (n : Nat) : tagsSize (droppedTags n) ≤ 107 := by
  have h1 :
      lenDelimSize (kvSize { key := "omnition.dropped", vType := .BOOL, vBool := true }) = 24 :=
    rfl
  have h2 :
      lenDelimSize
        (kvSize { key := "omnition.dropped.reason", vType := .STRING, vStr := "unsupported size" }) = 45 :=
    rfl
  have h3 :
      lenDelimSize
        (kvSize { key := "omnition.dropped.size", vType := .INT64, vInt64 := (n : Int) }) ≤ 38 := by
    have hk :
        kvSize { key := "omnition.dropped.size", vType := .INT64, vInt64 := (n : Int) } ≤ 36 := by
      simp only [kvSize]
      have hv : (if ((n : Int) = 0) then (0 : Nat)
          else 1 + intVarintSize (n : Int)) ≤ 11 := by
        split
        · omega
        · have := intVarintSize_le_ten (n : Int)
          omega
      have hkey : (if ("omnition.dropped.size" : String).length = 0 then 0
          else lenDelimSize ("omnition.dropped.size" : String).length) = 23 := rfl
      omega
    have hvw :
        varintSize
          (kvSize { key := "omnition.dropped.size", vType := .INT64, vInt64 := (n : Int) }) = 1 :=
      varintSize_of_lt _ (by omega)
    simp only [lenDelimSize, hvw]
    omega
  simp only [tagsSize, droppedTags, List.map_cons, List.map_nil, List.sum_cons,
    List.sum_nil, h1, h2]
  omega

/-- The re-encoded size of a marked span is its retained content plus the
marker tags: the oversize path clears the logs and keeps everything
else. -/
theorem markDroppedJaeger_size (s : Span) (n : Nat) :
    jaegerEncodedSize (markDroppedJaeger s n) =
      retainedSize s + tagsSize (droppedTags n) := by
  simp [jaegerEncodedSize, markDroppedJaeger, retainedSize, opNameSize, logsSize]

/-! ## Claim theorems -/

/-- C7: `NewExporter` validation fails (with an error, before any resource
is created) when the AWS region is absent, when the stream name is absent,
or when the encoding is set to anything other than `jaeger-proto` or
`oc-proto`; when the encoding is unset it defaults to `jaeger-proto` and
validation succeeds. -/
theorem newExporter_validation (o : Options) :
    (o.awsRegion = "" → validateOptions o = .error "missing AWS Region for Kinesis exporter") ∧
    (o.streamName = "" → exceptOk (validateOptions o) = false) ∧
    (o.encoding ≠ "" → o.encoding ≠ encodingJaeger → o.encoding ≠ encodingOC →
      exceptOk (validateOptions o) = false) ∧
    (o.encoding = "" → o.awsRegion ≠ "" → o.streamName ≠ "" →
      validateOptions o = .ok { withDefaults o with encoding := encodingJaeger }) := by
  have hr := withDefaults_awsRegion o
  have hs := withDefaults_streamName o
  have he := withDefaults_encoding o
  refine ⟨?_, ?_, ?_, ?_⟩
  · intro h
    simp [validateOptions, hr, h]
  · intro h
    by_cases hreg : o.awsRegion = ""
    · simp [validateOptions, hr, hreg, exceptOk]
    · simp [validateOptions, hr, hs, hreg, h, exceptOk]
  · intro h1 h2 h3
    by_cases hreg : o.awsRegion = ""
    · simp [validateOptions, hr, hreg, exceptOk]
    by_cases hstr : o.streamName = ""
    · simp [validateOptions, hr, hs, hreg, hstr, exceptOk]
    have hval : (withDefaults o).isValidEncoding = false := by
      simp only [Options.isValidEncoding, supportedEncodings, he, List.any_cons,
        List.any_nil, Bool.or_false, Bool.or_eq_false_iff, beq_eq_false_iff_ne]
      exact ⟨fun hc => absurd hc.symm h2, fun hc => absurd hc.symm h3⟩
    simp [validateOptions, hr, hs, he, hreg, hstr, h1, hval, exceptOk]
  · intro h1 h2 h3
    simp [validateOptions, hr, hs, he, h1, h2, h3, Options.isValidEncoding,
      supportedEncodings]

/-- C7 witness: validation at concrete options with a missing region, a
missing stream name, an unrecognised encoding, and an unset encoding. -/
theorem newExporter_validation_witness :
    validateOptions ⟨"n", "stream", "", 0, 0, 0, 0, 0, ""⟩ =
      .error "missing AWS Region for Kinesis exporter" ∧
    exceptOk (validateOptions ⟨"n", "", "us-east-1", 0, 0, 0, 0, 0, ""⟩) = false ∧
    exceptOk (validateOptions ⟨"n", "stream", "us-east-1", 0, 0, 0, 0, 0, "thrift"⟩) = false ∧
    validateOptions ⟨"n", "stream", "us-east-1", 0, 0, 0, 0, 0, ""⟩ =
      .ok { withDefaults ⟨"n", "stream", "us-east-1", 0, 0, 0, 0, 0, ""⟩ with
              encoding := encodingJaeger } :=
  ⟨(newExporter_validation _).1 rfl,
   (newExporter_validation _).2.1 rfl,
   (newExporter_validation _).2.2.1 (by decide) (by decide) (by decide),
   (newExporter_validation _).2.2.2 rfl (by decide) (by decide)⟩

/-- C2: `ExportSpan`, `ExportJaegerSpan` and `ExportOCSpan` return `nil` to
the caller for every span, every shard set and every encoder — including
encoders and shard sets under which the spawned task fails and drops the
span; the task's outcome is exactly the processing result and never feeds
the returned error. -/
theorem export_fire_and_forget (ps : List ShardProducerM) (hash : String → Nat)
    (maxSz : Nat) (encJ : Span → Option (List Nat)) (encO : OCSpan → Option (List Nat))
    (s : Span) (so : OCSpan) :
    (ExportSpan ps hash maxSz encJ s).returnedError = none ∧
    (ExportJaegerSpan ps hash maxSz encJ s).returnedError = none ∧
    (ExportOCSpan ps hash maxSz encO so).returnedError = none ∧
    (ExportJaegerSpan ps hash maxSz encJ s).taskResult =
      processJaegerSpan ps hash maxSz encJ s ∧
    (ExportOCSpan ps hash maxSz encO so).taskResult =
      processOCSpan ps hash maxSz encO so :=
  ⟨rfl, rfl, rfl, rfl, rfl⟩

theorem getShardProducer_no_match (hash : String → Nat) (key : String) :
    ∀ ps : List ShardProducerM,
      (∀ sp ∈ ps, belongsToShard hash sp.shard key = false) →
      getShardProducer hash ps key =
        .error ("no shard found for parition key " ++ key) := by
  intro ps
  induction ps with
  | nil => intro _; rfl
  | cons p rest ih =>
    intro h
    have hb := h p (List.mem_cons_self p rest)
    simp only [getShardProducer, hb, Bool.false_eq_true, if_false]
    exact ih fun q hq => h q (List.mem_cons_of_mem _ hq)

/-- C4: when the routing hash of a span's trace identifier lies in no
shard's range, `getShardProducer` returns the hard no-shard error (it does
not default to any shard), and the processing task drops the span: neither
the jaeger nor the OC pipeline produces a submission.  The exporter's other
state is untouched (the processing task just returns). -/
theorem routing_no_shard_drops_span (ps : List ShardProducerM)
    (hash : String → Nat) (maxSz : Nat) (encJ : Span → Option (List Nat))
    (encO : OCSpan → Option (List Nat)) (s : Span) (so : OCSpan)
    (hJ : ∀ sp ∈ ps, ¬(sp.shard.startingHashKey ≤ hash s.traceID ∧
          hash s.traceID ≤ sp.shard.endingHashKey))
    (hO : ∀ sp ∈ ps, ¬(sp.shard.startingHashKey ≤ hash so.traceId ∧
          hash so.traceId ≤ sp.shard.endingHashKey)) :
    getShardProducer hash ps s.traceID =
      .error ("no shard found for parition key " ++ s.traceID) ∧
    processJaegerSpan ps hash maxSz encJ s = none ∧
    processOCSpan ps hash maxSz encO so = none := by
  have hJ2 : ∀ sp ∈ ps, belongsToShard hash sp.shard s.traceID = false := by
    intro sp hsp
    simpa [belongsToShard] using hJ sp hsp
  have hO2 : ∀ sp ∈ ps, belongsToShard hash sp.shard so.traceId = false := by
    intro sp hsp
    simpa [belongsToShard] using hO sp hsp
  have herrJ := getShardProducer_no_match hash s.traceID ps hJ2
  have herrO := getShardProducer_no_match hash so.traceId ps hO2
  exact ⟨herrJ, by simp [processJaegerSpan, herrJ], by simp [processOCSpan, herrO]⟩

/-- C4 witness: a one-shard set whose range `[10, 20]` misses the hash
value `5`; the error is returned and both pipelines drop the span. -/
theorem routing_no_shard_drops_span_witness :
    getShardProducer (fun _ => 5) [⟨⟨"shard-1", 10, 20⟩, "10"⟩] "t" =
      .error ("no shard found for parition key " ++ "t") ∧
    processJaegerSpan [⟨⟨"shard-1", 10, 20⟩, "10"⟩] (fun _ => 5) 900000
      jaegerEncode ⟨"t", "op", [], [], 0⟩ = none ∧
    processOCSpan [⟨⟨"shard-1", 10, 20⟩, "10"⟩] (fun _ => 5) 900000
      ocEncode ⟨"t", [], [], 0⟩ = none :=
  routing_no_shard_drops_span [⟨⟨"shard-1", 10, 20⟩, "10"⟩] (fun _ => 5) 900000
    jaegerEncode ocEncode ⟨"t", "op", [], [], 0⟩ ⟨"t", [], [], 0⟩
    (by decide) (by decide)

/-- C5: shard resolution is a deterministic function of the trace
identifier's hash and the (fixed) shard set: whenever two partition keys
hash to the same value, `getShardProducer` resolves them to the same
producer; in particular two calls with the same identifier return the same
producer. -/
theorem routing_deterministic (hash : String → Nat) (ps : List ShardProducerM)
    (k1 k2 : String) (h : hash k1 = hash k2) (sp : ShardProducerM) :
    getShardProducer hash ps k1 = .ok sp ↔ getShardProducer hash ps k2 = .ok sp := by
  induction ps with
  | nil => simp [getShardProducer]
  | cons p rest ih =>
    have hb : belongsToShard hash p.shard k1 = belongsToShard hash p.shard k2 := by
      simp [belongsToShard, h]
    by_cases hc : belongsToShard hash p.shard k1 = true
    · simp [getShardProducer, hc, hb ▸ hc]
    · have hc2 : belongsToShard hash p.shard k2 ≠ true := hb ▸ hc
      simp only [getShardProducer, if_neg hc, if_neg hc2]
      exact ih

/-- C5 witness: two identifiers with the same hash under a constant hash
function resolve to the one covering shard. -/
theorem routing_deterministic_witness :
    getShardProducer (fun _ => 5) [⟨⟨"shard-1", 0, 100⟩, "0"⟩] "b" =
      .ok ⟨⟨"shard-1", 0, 100⟩, "0"⟩ :=
  (routing_deterministic (fun _ => 5) [⟨⟨"shard-1", 0, 100⟩, "0"⟩] "a" "b" rfl
    ⟨⟨"shard-1", 0, 100⟩, "0"⟩).mp rfl

/-- C6: with a bounded semaphore of capacity `c`, in every state reachable
by completed `acquire` and `release` calls the number of outstanding
acquisitions never exceeds `c`; with the gate unbounded (`nil` semaphore)
both calls are no-ops. -/
theorem admission_bound :
    (∀ (c n : Nat), GateReachable (some c) n → n ≤ c) ∧
    (∀ n : Nat, acquireStep none n = some n ∧ releaseStep none n = some n) := by
  constructor
  · intro c n h
    induction h with
    | init => exact Nat.zero_le c
    | acq _ hs ih =>
      simp only [acquireStep] at hs
      split at hs
      · cases hs
        omega
      · cases hs
    | rel _ hs ih =>
      simp only [releaseStep] at hs
      split at hs
      · cases hs
        omega
      · cases hs
  · intro n
    exact ⟨rfl, rfl⟩

/-- C6 witness: the bound evaluated at the reachable state `1` of a
capacity-2 gate, and the unbounded no-ops at `7`. -/
theorem admission_bound_witness :
    (1 : Nat) ≤ 2 ∧ acquireStep none 7 = some 7 ∧ releaseStep none 7 = some 7 :=
  ⟨admission_bound.1 2 1 (GateReachable.acq GateReachable.init rfl),
   (admission_bound.2 7).1, (admission_bound.2 7).2⟩

/-- C3 (exhibit of the divergence): from a state with one producer and one
in-flight export task, `Flush` returns after stopping the producer and
closing the gate while the task is still in flight — nothing in `Flush`
waits for in-flight tasks before stopping the writers, contradicting the
drain requirement. -/
theorem flush_does_not_wait :
    Flush { stopCalls := [0], inFlight := 1, semaphore := some 4, semClosed := false } =
      some { stopCalls := [1], inFlight := 1, semaphore := some 4, semClosed := true } :=
  rfl

/-- C10: when `MAX_KINESIS_RECEIVERS` is unset or not positive (parsed
value at most zero), the semaphore stays `nil`, `acquire` and `release`
are no-ops, and `Flush` stops every producer and then executes `close` on
the `nil` channel, so it panics instead of returning normally. -/
theorem unbounded_flush_panics (mr : Int) (st : ExpState) (n : Nat)
    (hmr : mr ≤ 0) (hsem : st.semaphore = none) :
    semaphoreInit mr = none ∧
    acquireStep st.semaphore n = some n ∧
    releaseStep st.semaphore n = some n ∧
    (flushStopPhase st).stopCalls = st.stopCalls.map (· + 1) ∧
    Flush st = none := by
  have h0 : ¬ mr > 0 := by omega
  refine ⟨by simp [semaphoreInit, h0], ?_, ?_, rfl, ?_⟩
  · rw [hsem]; rfl
  · rw [hsem]; rfl
  · simp [Flush, flushStopPhase, hsem]

/-- C10 witness: the unbounded configuration at the parsed value `0` and a
state with two producers and two in-flight tasks. -/
theorem unbounded_flush_panics_witness :
    semaphoreInit 0 = none ∧
    acquireStep (ExpState.mk [0, 0] 2 none false).semaphore 3 = some 3 ∧
    releaseStep (ExpState.mk [0, 0] 2 none false).semaphore 3 = some 3 ∧
    (flushStopPhase (ExpState.mk [0, 0] 2 none false)).stopCalls =
      (ExpState.mk [0, 0] 2 none false).stopCalls.map (· + 1) ∧
    Flush (ExpState.mk [0, 0] 2 none false) = none :=
  unbounded_flush_panics 0 (ExpState.mk [0, 0] 2 none false) 3 (by decide) rfl

/-- C1 counterexample: on the oc-proto path the oversize mutation does not
clear the event entries.  A span whose first encoding exceeds the limit
because of a 500-byte time event is submitted with its time events intact
(`[500]`, not `[]`), refuting the claim that both paths clear the
log/event entries. -/
theorem oversize_oc_keeps_events_cex :
    ocEncodedSize eventsOCSpan > 100 ∧
    (processOCSpan cexProducers cexHash 100 ocEncode eventsOCSpan).map
      (fun sub => sub.2.1.timeEvents) = some [500] ∧
    (processOCSpan cexProducers cexHash 100 ocEncode eventsOCSpan).map
      (fun sub => sub.2.1.timeEvents) ≠ some [] :=
  ⟨by decide, rfl, by decide⟩

/-- C1 (amended): on both paths an oversized first encoding makes the
exporter replace the span's tag/attribute entries with exactly the three
dropped markers (truncation flag, reason `"unsupported size"`, original
size), re-encode the mutated span and submit the re-encoded form — the
submission carries the mutated span and the re-encoded length, never the
original oversized bytes.  The jaeger path additionally clears the logs;
the oc path leaves the time events untouched. -/
theorem oversize_marker_submission :
    (∀ (ps : List ShardProducerM) (hash : String → Nat) (limit : Nat)
       (enc : Span → Option (List Nat)) (s : Span) (sp : ShardProducerM)
       (bs bs2 : List Nat),
       getShardProducer hash ps s.traceID = .ok sp →
       enc s = some bs → bs.length > limit →
       enc (markDroppedJaeger s bs.length) = some bs2 →
       processJaegerSpan ps hash limit enc s =
         some (sp, markDroppedJaeger s bs.length, bs2.length) ∧
       (markDroppedJaeger s bs.length).tags = droppedTags bs.length ∧
       (droppedTags bs.length).length = 3 ∧
       (markDroppedJaeger s bs.length).logs = []) ∧
    (∀ (ps : List ShardProducerM) (hash : String → Nat) (limit : Nat)
       (enc : OCSpan → Option (List Nat)) (s : OCSpan) (sp : ShardProducerM)
       (bs bs2 : List Nat),
       getShardProducer hash ps s.traceId = .ok sp →
       enc s = some bs → bs.length > limit →
       enc (markDroppedOC s bs.length) = some bs2 →
       processOCSpan ps hash limit enc s =
         some (sp, markDroppedOC s bs.length, bs2.length) ∧
       (markDroppedOC s bs.length).attributeMap = droppedAttributes bs.length ∧
       (droppedAttributes bs.length).length = 3 ∧
       (markDroppedOC s bs.length).timeEvents = s.timeEvents) := by
  constructor
  · intro ps hash limit enc s sp bs bs2 hroute henc hover henc2
    refine ⟨?_, rfl, rfl, rfl⟩
    simp [processJaegerSpan, hroute, henc, hover, henc2]
  · intro ps hash limit enc s sp bs bs2 hroute henc hover henc2
    refine ⟨?_, rfl, rfl, rfl⟩
    simp [processOCSpan, hroute, henc, hover, henc2]

/-- C1 witness: the jaeger pipeline on a span with a 300-byte log payload
(first encoding 322 bytes, limit 150) and the oc pipeline on a span with a
500-byte time event (first encoding 502 bytes, limit 100). -/
theorem oversize_marker_submission_witness :
    (processJaegerSpan cexProducers cexHash 150 jaegerEncode bigLogSpan =
       some (⟨⟨"shard-1", 0, 1000000⟩, "0"⟩, markDroppedJaeger bigLogSpan 322, 103) ∧
     (markDroppedJaeger bigLogSpan 322).tags = droppedTags 322 ∧
     (droppedTags 322).length = 3 ∧
     (markDroppedJaeger bigLogSpan 322).logs = []) ∧
    (processOCSpan cexProducers cexHash 100 ocEncode eventsOCSpan =
       some (⟨⟨"shard-1", 0, 1000000⟩, "0"⟩, markDroppedOC eventsOCSpan 502, 574) ∧
     (markDroppedOC eventsOCSpan 502).attributeMap = droppedAttributes 502 ∧
     (droppedAttributes 502).length = 3 ∧
     (markDroppedOC eventsOCSpan 502).timeEvents = eventsOCSpan.timeEvents) :=
  ⟨oversize_marker_submission.1 cexProducers cexHash 150 jaegerEncode bigLogSpan
     ⟨⟨"shard-1", 0, 1000000⟩, "0"⟩ (List.replicate 322 0) (List.replicate 103 0)
     rfl rfl (by decide) rfl,
   oversize_marker_submission.2 cexProducers cexHash 100 ocEncode eventsOCSpan
     ⟨⟨"shard-1", 0, 1000000⟩, "0"⟩ (List.replicate 502 0) (List.replicate 574 0)
     rfl rfl (by decide) rfl⟩

/-- C9: a span whose first encoding is at or below the limit passes the
size guard untouched on both paths: the submission carries the original
span (no tags replaced, no logs cleared) and the first encoding's byte
length. -/
theorem sizeguard_noop_below_limit
    (ps : List ShardProducerM) (hash : String → Nat) (limit : Nat)
    (encJ : Span → Option (List Nat)) (encO : OCSpan → Option (List Nat))
    (s : Span) (so : OCSpan) (spJ spO : ShardProducerM) (bsJ bsO : List Nat)
    (hrJ : getShardProducer hash ps s.traceID = .ok spJ)
    (heJ : encJ s = some bsJ) (hszJ : bsJ.length ≤ limit)
    (hrO : getShardProducer hash ps so.traceId = .ok spO)
    (heO : encO so = some bsO) (hszO : bsO.length ≤ limit) :
    processJaegerSpan ps hash limit encJ s = some (spJ, s, bsJ.length) ∧
    processOCSpan ps hash limit encO so = some (spO, so, bsO.length) := by
  have hnJ : ¬ (bsJ.length > limit) := by omega
  have hnO : ¬ (bsO.length > limit) := by omega
  exact ⟨by simp [processJaegerSpan, hrJ, heJ, hnJ],
         by simp [processOCSpan, hrO, heO, hnO]⟩

/-- C9 witness: the small spans pass through unchanged at the default
900000-byte limit. -/
theorem sizeguard_noop_below_limit_witness :
    processJaegerSpan cexProducers cexHash 900000 jaegerEncode smallSpan =
      some (⟨⟨"shard-1", 0, 1000000⟩, "0"⟩, smallSpan, 14) ∧
    processOCSpan cexProducers cexHash 900000 ocEncode smallOCSpan =
      some (⟨⟨"shard-1", 0, 1000000⟩, "0"⟩, smallOCSpan, 10) :=
  sizeguard_noop_below_limit cexProducers cexHash 900000 jaegerEncode ocEncode
    smallSpan smallOCSpan ⟨⟨"shard-1", 0, 1000000⟩, "0"⟩ ⟨⟨"shard-1", 0, 1000000⟩, "0"⟩
    (List.replicate 14 0) (List.replicate 10 0)
    rfl rfl (by decide) rfl rfl (by decide)

/-- C8 counterexample: a span oversized purely through its operation name
(first encoding 303 bytes, limit 200, within 2x of the limit) is truncated
to a re-encoding of 402 bytes, still above the limit: the truncated
re-encoding is not always at most the limit. -/
theorem truncation_exceeds_limit_cex :
    jaegerEncodedSize bigOpSpan > 200 ∧
    jaegerEncodedSize bigOpSpan ≤ 2 * 200 ∧
    (processJaegerSpan cexProducers cexHash 200 jaegerEncode bigOpSpan).map
      (fun sub => sub.2.2) = some 402 ∧
    ¬ (402 ≤ 200) :=
  ⟨by decide, by decide, rfl, by decide⟩

/-- C8 (amended): for a span whose jaeger encoding exceeds the limit, the
truncated re-encoding that gets submitted is at most the limit whenever
the retained content (every field other than tags and logs) fits in the
limit with the at-most-107-byte marker overhead; a span whose retained
content alone is too large (such as `bigOpSpan`) still exceeds the limit
after truncation. -/
theorem truncation_bounded (ps : List ShardProducerM) (hash : String → Nat)
    (limit : Nat) (s : Span) (sp : ShardProducerM)
    (hroute : getShardProducer hash ps s.traceID = .ok sp)
    (hover : jaegerEncodedSize s > limit)
    (hfit : retainedSize s + 107 ≤ limit) :
    processJaegerSpan ps hash limit jaegerEncode s =
      some (sp, markDroppedJaeger s (jaegerEncodedSize s),
        jaegerEncodedSize (markDroppedJaeger s (jaegerEncodedSize s))) ∧
    jaegerEncodedSize (markDroppedJaeger s (jaegerEncodedSize s)) ≤ limit := by
  constructor
  · simp [processJaegerSpan, hroute, jaegerEncode, hover]
  · rw [markDroppedJaeger_size]
    have := droppedTags_size_le (jaegerEncodedSize s)
    omega

/-- C8 witness: the log-heavy span (first encoding 322 bytes, retained
content 4 bytes) at limit 150 truncates to 103 bytes, below the limit. -/
theorem truncation_bounded_witness :
    processJaegerSpan cexProducers cexHash 150 jaegerEncode bigLogSpan =
      some (⟨⟨"shard-1", 0, 1000000⟩, "0"⟩,
        markDroppedJaeger bigLogSpan (jaegerEncodedSize bigLogSpan),
        jaegerEncodedSize (markDroppedJaeger bigLogSpan (jaegerEncodedSize bigLogSpan))) ∧
    jaegerEncodedSize (markDroppedJaeger bigLogSpan (jaegerEncodedSize bigLogSpan)) ≤ 150 :=
  truncation_bounded cexProducers cexHash 150 bigLogSpan
    ⟨⟨"shard-1", 0, 1000000⟩, "0"⟩ rfl (by decide) (by decide)

end Kinesis
